import Mathlib

/-!
Shallow embedding of the cv-mmap client (`src/client/cvmmap/__init__.py`,
`src/client/cvmmap/msg.py`, and the `SharedMemory` wrapper of
`src/client/test_zmq.py`): the fixed 14-byte header codec, the lazy
one-time shared-memory attachment with resource-tracker suppression, and
the notification-processing loop that yields zero-copy frame views.

Bytes are modelled as `List Nat` (each element a byte value).  The
reference platform is little-endian, so the `"=IHHBBI"` native-order
struct layout is embedded as little-endian.  Python exceptions are
modelled by the `PyError` inductive; a `try`/`except` becomes a match on
an `Except` value.
-/

/-- The Python exception kinds the client code can raise, as an inductive.
`structError` is `struct.error` from `struct.unpack` (it carries the length
of the offending input); `fileNotFound` is the `FileNotFoundError` from
attaching to a missing segment; `valueError` is the
`ValueError("Shared memory already initialized")` raised by `_init_shm`;
`bufferTooSmall` is the `TypeError` numpy raises when the requested shape
exceeds the backing buffer; `assertionError` is the
`assert self._shm is not None` in `__aiter__`. -/
inductive PyError
  | structError (len : Nat)
  | fileNotFound
  | valueError
  | bufferTooSmall
  | assertionError
deriving DecidableEq, Repr

/-- `SyncMessage` from `src/client/cvmmap/msg.py`: the decoded 14-byte
frame-notification header.  Field widths: `frame_count` `uint32`,
`width`/`height` `uint16`, `channels`/`depth` `uint8`,
`buffer_size` `uint32`. -/
structure SyncMessage where
  frame_count : Nat
  width : Nat
  height : Nat
  channels : Nat
  depth : Nat
  buffer_size : Nat
deriving DecidableEq, Repr

/-- The field extraction performed by `struct.unpack("=IHHBBI", data)` once
the length check has passed: little-endian `u32` at offset 0, `u16` at 4,
`u16` at 6, `u8` at 8, `u8` at 9, `u32` at 10. -/
def decodeFields (data : List Nat) : SyncMessage :=
  { frame_count := data.getD 0 0 + 256 * data.getD 1 0
      + 65536 * data.getD 2 0 + 16777216 * data.getD 3 0
    width := data.getD 4 0 + 256 * data.getD 5 0
    height := data.getD 6 0 + 256 * data.getD 7 0
    channels := data.getD 8 0
    depth := data.getD 9 0
    buffer_size := data.getD 10 0 + 256 * data.getD 11 0
      + 65536 * data.getD 12 0 + 16777216 * data.getD 13 0 }

/-- `SyncMessage.unmarshal` from `src/client/cvmmap/msg.py`:
`struct.unpack("=IHHBBI", data)` succeeds exactly when `data` has the
format's size, 14 bytes; otherwise it raises `struct.error`. -/
def SyncMessage.unmarshal (data : List Nat) : Except PyError SyncMessage :=
  if data.length = 14 then .ok (decodeFields data)
  else .error (.structError data.length)

/-- A header is valid when each field fits its stated unsigned bit width. -/
def SyncMessage.valid (m : SyncMessage) : Prop :=
  m.frame_count < 4294967296 ∧ m.width < 65536 ∧ m.height < 65536 ∧
  m.channels < 256 ∧ m.depth < 256 ∧ m.buffer_size < 4294967296

instance (m : SyncMessage) : Decidable m.valid := by
  unfold SyncMessage.valid; infer_instance

/-- Modelled from the spec: `encode(FrameHeader) -> bytes`, the
producer-side inverse of `decode`, absent from the client sources.  Packs
the six fields in order, each little-endian with no padding
(`frame_count`:4, `width`:2, `height`:2, `channels`:1, `depth`:1,
`buffer_size`:4), 14 bytes in all. -/
def SyncMessage.marshal (m : SyncMessage) : List Nat :=
  [ m.frame_count % 256, m.frame_count / 256 % 256,
    m.frame_count / 65536 % 256, m.frame_count / 16777216 % 256,
    m.width % 256, m.width / 256 % 256,
    m.height % 256, m.height / 256 % 256,
    m.channels % 256,
    m.depth % 256,
    m.buffer_size % 256, m.buffer_size / 256 % 256,
    m.buffer_size / 65536 % 256, m.buffer_size / 16777216 % 256 ]

/-- The process-global `multiprocessing.resource_tracker.register` slot, as
the `SharedMemory` wrapper of `src/client/test_zmq.py` sees it: either the
tracker's real register function or the wrapper's no-op `__tmp_register`
replacement. -/
inductive RegisterFn
  | original
  | tmpRegister
deriving DecidableEq, Repr

/-- Process-global mutable state touched by the monkey-patching wrapper:
the current value of `_mprt.register`. -/
structure Globals where
  register : RegisterFn
deriving DecidableEq, Repr

/-- The environment an attach runs against: `seg` is the byte size of the
named OS shared-memory segment when it exists, `none` when the name does
not resolve. -/
structure Env where
  seg : Option Nat
deriving DecidableEq, Repr

/-- A live attachment handle: `size` is the byte length of the mapped
buffer (`shm.buf`).  Attaching with `create=False` maps the segment at its
actual size. -/
structure Shm where
  size : Nat
deriving DecidableEq, Repr

instance {ε α : Type} [DecidableEq ε] [DecidableEq α] :
    DecidableEq (Except ε α) := fun x y =>
  match x, y with
  | .ok a, .ok b =>
    if h : a = b then .isTrue (by rw [h]) else .isFalse (by simp [h])
  | .error a, .error b =>
    if h : a = b then .isTrue (by rw [h]) else .isFalse (by simp [h])
  | .ok _, .error _ => .isFalse (by simp)
  | .error _, .ok _ => .isFalse (by simp)

/-- Outcome of `SharedMemory.__init__` (the wrapper in
`src/client/test_zmq.py`): the attach result, the global state after the
call, and the value `_mprt.register` held while the underlying
`SharedMemory` initialisation ran. -/
structure ShmInitResult where
  result : Except PyError Shm
  globals : Globals
  registerDuringAttach : RegisterFn
deriving DecidableEq, Repr

/-- `SharedMemory.__init__(name, create=False, size, track)` from
`src/client/test_zmq.py`.  With `track=True` it defers to the normal
initialiser.  With `track=False` it saves `_mprt.register`, installs the
no-op `__tmp_register`, runs the normal initialiser, and restores the
saved function in a `finally`, so the restore happens whether the attach
returns or raises.  The `size` argument is ignored on attach
(`create=False` maps the existing segment at its own size). -/
def sharedMemoryInit (track : Bool) (env : Env) (size : Nat) (g : Globals) :
    ShmInitResult :=
  let baseInit : Except PyError Shm :=
    match env.seg with
    | some sz => .ok ⟨sz⟩
    | none => .error .fileNotFound
  let _ := size
  if track then
    { result := baseInit, globals := g, registerDuringAttach := g.register }
  else
    let origRegister := g.register
    let gSwapped : Globals := { register := .tmpRegister }
    let gRestored : Globals := { register := origRegister }
    { result := baseInit, globals := gRestored,
      registerDuringAttach := gSwapped.register }

/-- The `track` keyword argument `CvMmapClient._init_shm` passes to
`SharedMemory` (`src/client/cvmmap/__init__.py`: `track=False`, with the
comment `# disable tracking`). -/
def initShmTrackArg : Bool := false

/-- A zero-copy frame view: `np.ndarray((height, width, channels),
dtype=np.uint8, buffer=shm.buf)`.  `segSize` records the byte length of
the backing buffer. -/
structure FrameView where
  height : Nat
  width : Nat
  channels : Nat
  segSize : Nat
deriving DecidableEq, Repr

/-- The shape `(height, width, channels)` of a view. -/
def FrameView.shape (v : FrameView) : Nat × Nat × Nat :=
  (v.height, v.width, v.channels)

/-- Total addressable length of a view in bytes: one byte per sample
(`dtype=np.uint8`). -/
def FrameView.nbytes (v : FrameView) : Nat :=
  v.height * v.width * v.channels

/-- Construction of the numpy view from a decoded header over an attached
buffer. -/
def mkView (m : SyncMessage) (shm : Shm) : FrameView :=
  ⟨m.height, m.width, m.channels, shm.size⟩

/-- The per-client mutable state of `CvMmapClient`: `_image_buffer` and
`_shm`, plus a ghost counter of how many times the underlying
shared-memory attach ran. -/
structure ClientState where
  image_buffer : Option FrameView
  shm : Option Shm
  attachCount : Nat
deriving DecidableEq, Repr

/-- The state `CvMmapClient.__init__` leaves behind: no buffer, no
attachment. -/
def initialState : ClientState :=
  { image_buffer := none, shm := none, attachCount := 0 }

/-- Global state at client start: the resource tracker's real register
function is installed. -/
def initialGlobals : Globals := { register := .original }

/-- `CvMmapClient._init_shm(size)` from `src/client/cvmmap/__init__.py`:
if `self._shm is None`, attach via `SharedMemory(name, create=False,
size, track=False)` and store the handle; otherwise raise
`ValueError("Shared memory already initialized")`.  An `ok` result is the
updated client state; an `error` leaves the client state as the caller
had it (the assignment never ran). -/
def initShm (env : Env) (g : Globals) (s : ClientState) (size : Nat) :
    Except PyError ClientState × Globals :=
  match s.shm with
  | none =>
    let r := sharedMemoryInit initShmTrackArg env size g
    match r.result with
    | .ok shm =>
      (.ok { s with shm := some shm, attachCount := s.attachCount + 1 },
       r.globals)
    | .error e => (.error e, r.globals)
  | some _ => (.error .valueError, g)

/-- What one loop iteration of `CvMmapClient.__aiter__` does with one
received message: yield a view to the caller (with successor client and
global state), drop the message (`except StructError: ... continue`), or
let an exception propagate out of the generator.  The states carried by
`raised` are those at the moment the exception escaped: Python assignments
already performed are not rolled back. -/
inductive StepOutcome
  | yielded (v : FrameView) (s : ClientState) (g : Globals)
  | dropped (s : ClientState) (g : Globals)
  | raised (e : PyError) (s : ClientState) (g : Globals)
deriving DecidableEq, Repr

/-- The client state an outcome leaves behind. -/
def StepOutcome.state : StepOutcome → ClientState
  | .yielded _ s _ => s
  | .dropped s _ => s
  | .raised _ s _ => s

/-- The body of `CvMmapClient.__aiter__` for one received message:
`unmarshal` the bytes (a `struct.error` is caught, logged and the loop
continues); if `self._image_buffer is None`, call `_init_shm`, assert the
handle, and build the `np.ndarray` view (which needs
`height*width*channels` bytes from the backing buffer); yield the current
buffer.  Only `struct.error` is caught — every other exception escapes. -/
def processMessage (env : Env) (s : ClientState) (g : Globals)
    (msg : List Nat) : StepOutcome :=
  match SyncMessage.unmarshal msg with
  | .error _ => .dropped s g
  | .ok sync =>
    match s.image_buffer with
    | some buf => .yielded buf s g
    | none =>
      match initShm env g s sync.buffer_size with
      | (.error e, g') => .raised e s g'
      | (.ok s', g') =>
        match s'.shm with
        | none => .raised .assertionError s' g'
        | some shm =>
          if sync.height * sync.width * sync.channels ≤ shm.size then
            let v := mkView sync shm
            .yielded v { s' with image_buffer := some v } g'
          else .raised .bufferTooSmall s' g'

/-- One observable event per processed message: a view yielded to the
caller, or a malformed message logged and dropped. -/
inductive Event
  | yields (v : FrameView)
  | drops
deriving DecidableEq, Repr

/-- Whether an event is a yield. -/
def Event.isYields : Event → Bool
  | .yields _ => true
  | .drops => false

/-- Result of running the loop over a finite prefix of the incoming
message sequence: the events in order, the final client and global state,
and the exception that terminated the loop, if any. -/
structure RunResult where
  events : List Event
  state : ClientState
  globals : Globals
  err : Option PyError
deriving DecidableEq, Repr

/-- `CvMmapClient.__aiter__` over a finite prefix of the incoming message
sequence: process each message in arrival order; a raised exception ends
the run (the generator is dead), everything else continues. -/
def runLoop (env : Env) : ClientState → Globals → List (List Nat) →
    RunResult
  | s, g, [] => ⟨[], s, g, none⟩
  | s, g, m :: ms =>
    match processMessage env s g m with
    | .yielded v s' g' =>
      let r := runLoop env s' g' ms
      { r with events := .yields v :: r.events }
    | .dropped s' g' =>
      let r := runLoop env s' g' ms
      { r with events := .drops :: r.events }
    | .raised e s' g' => ⟨[], s', g', some e⟩

/-- The views a run yielded, in order. -/
def RunResult.views (r : RunResult) : List FrameView :=
  r.events.filterMap fun ev =>
    match ev with
    | .yields v => some v
    | .drops => none

/-- A message is well-formed when it has the wire format's exact length,
14 bytes. -/
def wellFormed (m : List Nat) : Bool :=
  m.length == 14

/-- The spec's concrete scenario message: `frame_count=1, width=4,
height=2, channels=3, depth=0, buffer_size=24`, packed little-endian. -/
def scenarioMsg : List Nat :=
  [1, 0, 0, 0, 4, 0, 2, 0, 3, 0, 24, 0, 0, 0]

theorem unmarshal_of_len_eq (data : List Nat) (h : data.length = 14) :
    SyncMessage.unmarshal data = .ok (decodeFields data) := by
  simp [SyncMessage.unmarshal, h]

theorem unmarshal_of_len_ne (data : List Nat) (h : data.length ≠ 14) :
    SyncMessage.unmarshal data = .error (.structError data.length) := by
  simp [SyncMessage.unmarshal, h]

/-- Claim C2: for every input whose length is not exactly 14 bytes,
`SyncMessage.unmarshal` fails with the `struct.error` carrying that
length, and with no other error kind; no partially decoded header is
produced. -/
theorem unmarshal_malformed (data : List Nat) (h : data.length ≠ 14) :
    SyncMessage.unmarshal data = .error (.structError data.length) := by
  simp [SyncMessage.unmarshal, h]

theorem unmarshal_malformed_witness :
    ([0] : List Nat).length ≠ 14 ∧
    SyncMessage.unmarshal [0] = .error (.structError 1) :=
  ⟨by decide, unmarshal_malformed [0] (by decide)⟩

/-- Claim C5: for every valid header (each field within its unsigned bit
width), `marshal` produces exactly 14 bytes and `unmarshal` of those
bytes returns the header unchanged. -/
theorem marshal_unmarshal_roundtrip (m : SyncMessage) (h : m.valid) :
    m.marshal.length = 14 ∧ SyncMessage.unmarshal m.marshal = .ok m := by
  obtain ⟨fc, w, ht, c, d, bs⟩ := m
  simp only [SyncMessage.valid] at h
  obtain ⟨h1, h2, h3, h4, h5, h6⟩ := h
  refine ⟨rfl, ?_⟩
  simp only [SyncMessage.unmarshal, SyncMessage.marshal, decodeFields,
    List.length_cons, List.length_nil, List.getD, List.get?, if_pos,
    Except.ok.injEq, SyncMessage.mk.injEq]
  refine ⟨?_, ?_, ?_, ?_, ?_, ?_⟩ <;> simp only [Option.getD_some] <;> omega

theorem marshal_unmarshal_roundtrip_witness :
    (SyncMessage.valid ⟨1, 4, 2, 3, 0, 24⟩) ∧
    (SyncMessage.marshal ⟨1, 4, 2, 3, 0, 24⟩).length = 14 ∧
    SyncMessage.unmarshal (SyncMessage.marshal ⟨1, 4, 2, 3, 0, 24⟩)
      = .ok ⟨1, 4, 2, 3, 0, 24⟩ :=
  ⟨by decide, marshal_unmarshal_roundtrip ⟨1, 4, 2, 3, 0, 24⟩ (by decide)⟩

/-- Claim C6: the 14-byte little-endian (native order on the reference
platform) message for `frame_count=1, width=4, height=2, channels=3,
depth=0, buffer_size=24` decodes to exactly those field values, and the
view then built from it over a 24-byte segment has shape `(2,4,3)` and
total addressable length 24 bytes. -/
theorem scenario_decode_and_view :
    SyncMessage.unmarshal scenarioMsg = .ok ⟨1, 4, 2, 3, 0, 24⟩ ∧
    processMessage ⟨some 24⟩ initialState initialGlobals scenarioMsg
      = .yielded ⟨2, 4, 3, 24⟩
          ⟨some ⟨2, 4, 3, 24⟩, some ⟨24⟩, 1⟩ initialGlobals ∧
    FrameView.shape ⟨2, 4, 3, 24⟩ = (2, 4, 3) ∧
    FrameView.nbytes ⟨2, 4, 3, 24⟩ = 24 := by
  refine ⟨by decide, by decide, rfl, rfl⟩

/-- Claim C7: calling `_init_shm` in any state whose shared-memory handle
is already set fails with the `ValueError` and performs no new
attachment (the client state is returned to the caller untouched and the
globals are unchanged). -/
theorem init_shm_already_attached (env : Env) (g : Globals)
    (s : ClientState) (size : Nat) (x : Shm) (h : s.shm = some x) :
    initShm env g s size = (.error .valueError, g) := by
  unfold initShm
  rw [h]

theorem init_shm_already_attached_witness :
    (⟨none, some ⟨24⟩, 1⟩ : ClientState).shm = some ⟨24⟩ ∧
    initShm ⟨some 24⟩ initialGlobals ⟨none, some ⟨24⟩, 1⟩ 24
      = (.error .valueError, initialGlobals) :=
  ⟨rfl, init_shm_already_attached ⟨some 24⟩ initialGlobals
    ⟨none, some ⟨24⟩, 1⟩ 24 ⟨24⟩ rfl⟩

/-- Claim C9: `_init_shm` attaches with tracking disabled
(`track=False`), a non-tracking attach runs while the global register
slot holds the no-op replacement, and afterwards — whether the attach
returned or raised — the original register function is back, unchanged. -/
theorem tracking_suppressed :
    initShmTrackArg = false ∧
    ∀ (env : Env) (size : Nat) (g : Globals),
      (sharedMemoryInit initShmTrackArg env size g).registerDuringAttach
        = RegisterFn.tmpRegister ∧
      (sharedMemoryInit initShmTrackArg env size g).globals.register
        = g.register :=
  ⟨rfl, fun _ _ _ => ⟨rfl, rfl⟩⟩

theorem processMessage_drop (env : Env) (s : ClientState) (g : Globals)
    (m : List Nat) (h : m.length ≠ 14) :
    processMessage env s g m = .dropped s g := by
  unfold processMessage
  rw [unmarshal_of_len_ne m h]

theorem processMessage_buffered (env : Env) (s : ClientState) (g : Globals)
    (m : List Nat) (v : FrameView) (hb : s.image_buffer = some v)
    (hm : m.length = 14) :
    processMessage env s g m = .yielded v s g := by
  unfold processMessage
  rw [unmarshal_of_len_eq m hm, hb]

theorem processMessage_initial_yield_inv (env : Env) (g : Globals)
    (m : List Nat) (v : FrameView) (s' : ClientState) (g' : Globals)
    (h : processMessage env initialState g m = .yielded v s' g') :
    ∃ sz, env.seg = some sz ∧ m.length = 14 ∧
      v = mkView (decodeFields m) ⟨sz⟩ ∧
      s' = ⟨some v, some ⟨sz⟩, 1⟩ ∧ g' = g ∧
      (decodeFields m).height * (decodeFields m).width *
        (decodeFields m).channels ≤ sz := by
  by_cases hm : m.length = 14
  · unfold processMessage at h
    rw [unmarshal_of_len_eq m hm] at h
    simp only [initialState] at h
    unfold initShm at h
    simp only [initShmTrackArg, sharedMemoryInit] at h
    cases henv : env.seg with
    | none => rw [henv] at h; simp at h
    | some sz =>
      rw [henv] at h
      simp only [Bool.false_eq_true, if_false] at h
      by_cases hfit : (decodeFields m).height * (decodeFields m).width *
          (decodeFields m).channels ≤ sz
      · rw [if_pos hfit] at h
        injection h with hv hs hg
        exact ⟨sz, rfl, hm, hv.symm, by rw [← hs, ← hv], hg.symm, hfit⟩
      · rw [if_neg hfit] at h
        exact absurd h (by simp)
  · rw [processMessage_drop env initialState g m hm] at h
    exact absurd h (by simp)

theorem runLoop_buffered (env : Env) (msgs : List (List Nat))
    (s : ClientState) (g : Globals) (v : FrameView)
    (hb : s.image_buffer = some v) :
    runLoop env s g msgs =
      ⟨msgs.map fun m => if m.length = 14 then .yields v else .drops,
       s, g, none⟩ := by
  induction msgs with
  | nil => rfl
  | cons m ms ih =>
    by_cases hm : m.length = 14
    · simp only [runLoop, processMessage_buffered env s g m v hb hm, ih,
        List.map_cons, if_pos hm]
    · simp only [runLoop, processMessage_drop env s g m hm, ih,
        List.map_cons, if_neg hm]

/-- Claim C1: over a whole run on well-formed notifications whose first
attach-and-build succeeds, the underlying attach runs exactly once — the
final attach count is 1 no matter how many notifications follow, and the
loop never terminates on them. -/
theorem attach_invoked_once (env : Env) (m0 : List Nat)
    (rest : List (List Nat)) (v : FrameView) (s1 : ClientState)
    (g1 : Globals)
    (_hwf : ∀ m ∈ m0 :: rest, m.length = 14)
    (hfirst : processMessage env initialState initialGlobals m0
      = .yielded v s1 g1) :
    (runLoop env initialState initialGlobals (m0 :: rest)).state.attachCount
      = 1 ∧
    (runLoop env initialState initialGlobals (m0 :: rest)).err = none := by
  obtain ⟨sz, hseg, hm, hv, hs, hg, hfit⟩ :=
    processMessage_initial_yield_inv env initialGlobals m0 v s1 g1 hfirst
  have hb : s1.image_buffer = some v := by rw [hs]
  simp only [runLoop, hfirst, runLoop_buffered env rest s1 g1 v hb]
  rw [hs]
  exact ⟨rfl, trivial⟩

theorem attach_invoked_once_witness :
    (∀ m ∈ [scenarioMsg, scenarioMsg, scenarioMsg], m.length = 14) ∧
    ((runLoop ⟨some 24⟩ initialState initialGlobals
        [scenarioMsg, scenarioMsg, scenarioMsg]).state.attachCount = 1 ∧
     (runLoop ⟨some 24⟩ initialState initialGlobals
        [scenarioMsg, scenarioMsg, scenarioMsg]).err = none) :=
  ⟨by decide,
   attach_invoked_once ⟨some 24⟩ scenarioMsg [scenarioMsg, scenarioMsg]
     ⟨2, 4, 3, 24⟩ ⟨some ⟨2, 4, 3, 24⟩, some ⟨24⟩, 1⟩ initialGlobals
     (by decide) (by decide)⟩

theorem map_wf_yields (v : FrameView) (l : List (List Nat))
    (h : ∀ m ∈ l, m.length = 14) :
    (l.map fun m => if m.length = 14 then Event.yields v else .drops)
      = List.replicate l.length (Event.yields v) := by
  induction l with
  | nil => rfl
  | cons a t ih =>
    simp only [List.map_cons, List.length_cons, List.replicate_succ,
      if_pos (h a (List.mem_cons_self a t)), List.cons.injEq]
    exact ⟨trivial, ih fun m hm => h m (List.mem_cons_of_mem a hm)⟩

theorem filterMap_yields_replicate (n : Nat) (v : FrameView) :
    (List.replicate n (Event.yields v)).filterMap
      (fun ev => match ev with | .yields w => some w | .drops => none)
      = List.replicate n v := by
  induction n with
  | zero => rfl
  | succ k ih =>
    simp only [List.replicate_succ, List.filterMap_cons]
    rw [ih]

/-- Claim C4: the view is built exactly once, from the first successfully
decoded notification — its shape is the first header's `(height, width,
channels)` — and every later notification, whatever dimensions it
carries, makes the loop yield that very same view value again. -/
theorem view_built_once (env : Env) (m0 : List Nat)
    (rest : List (List Nat)) (v : FrameView) (s1 : ClientState)
    (g1 : Globals)
    (hwf : ∀ m ∈ m0 :: rest, m.length = 14)
    (hfirst : processMessage env initialState initialGlobals m0
      = .yielded v s1 g1) :
    (runLoop env initialState initialGlobals (m0 :: rest)).views
      = List.replicate (rest.length + 1) v ∧
    v.shape = ((decodeFields m0).height, (decodeFields m0).width,
      (decodeFields m0).channels) := by
  obtain ⟨sz, hseg, hm, hv, hs, hg, hfit⟩ :=
    processMessage_initial_yield_inv env initialGlobals m0 v s1 g1 hfirst
  have hb : s1.image_buffer = some v := by rw [hs]
  refine ⟨?_, by rw [hv]; rfl⟩
  simp only [runLoop, hfirst, runLoop_buffered env rest s1 g1 v hb]
  unfold RunResult.views
  simp only [List.filterMap_cons]
  rw [map_wf_yields v rest (fun m hm' => hwf m (List.mem_cons_of_mem m0 hm')),
    filterMap_yields_replicate]
  rfl

theorem view_built_once_witness :
    (∀ m ∈ [scenarioMsg, [7, 0, 0, 0, 1, 0, 1, 0, 1, 0, 3, 0, 0, 0]],
      m.length = 14) ∧
    ((runLoop ⟨some 24⟩ initialState initialGlobals
        [scenarioMsg, [7, 0, 0, 0, 1, 0, 1, 0, 1, 0, 3, 0, 0, 0]]).views
      = List.replicate 2 ⟨2, 4, 3, 24⟩ ∧
     FrameView.shape ⟨2, 4, 3, 24⟩
       = ((decodeFields scenarioMsg).height,
          (decodeFields scenarioMsg).width,
          (decodeFields scenarioMsg).channels)) :=
  ⟨by decide,
   view_built_once ⟨some 24⟩ scenarioMsg
     [[7, 0, 0, 0, 1, 0, 1, 0, 1, 0, 3, 0, 0, 0]]
     ⟨2, 4, 3, 24⟩ ⟨some ⟨2, 4, 3, 24⟩, some ⟨24⟩, 1⟩ initialGlobals
     (by decide) (by decide)⟩

/-- Claim C3: for any interleaving of well-formed 14-byte notifications
and wrong-length blobs in which processing the first well-formed
notification succeeds, the loop never terminates — no error — and its
event trace yields exactly at the well-formed positions, in arrival
order: one view per well-formed notification, one logged drop per
malformed blob. -/
theorem malformed_resilience (env : Env) (msgs : List (List Nat))
    (hfirst : ∀ m, msgs.find? wellFormed = some m →
      ∃ v s' g', processMessage env initialState initialGlobals m
        = .yielded v s' g') :
    (runLoop env initialState initialGlobals msgs).err = none ∧
    (runLoop env initialState initialGlobals msgs).events.map Event.isYields
      = msgs.map wellFormed := by
  induction msgs with
  | nil => exact ⟨rfl, rfl⟩
  | cons m ms ih =>
    by_cases hm : m.length = 14
    · have hwf : wellFormed m = true := by
        simp [wellFormed, hm]
      obtain ⟨v, s', g', hp⟩ :=
        hfirst m (by rw [List.find?_cons_of_pos _ hwf])
      obtain ⟨sz, hseg, hlen, hv, hs, hg, hfit⟩ :=
        processMessage_initial_yield_inv env initialGlobals m v s' g' hp
      have hb : s'.image_buffer = some v := by rw [hs]
      simp only [runLoop, hp, runLoop_buffered env ms s' g' v hb,
        List.map_cons, Event.isYields, hwf, List.map_map]
      refine ⟨trivial, congrArg (List.cons true) ?_⟩
      apply List.map_congr_left
      intro a _
      by_cases ha : a.length = 14
      · simp [Function.comp, wellFormed, Event.isYields, ha]
      · simp [Function.comp, wellFormed, Event.isYields, ha]
    · have hwf : wellFormed m = false := by
        simp [wellFormed, hm]
      have ihh := ih fun m' hm' =>
        hfirst m' (by rw [List.find?_cons_of_neg _ (by simp [hwf])]; exact hm')
      simp only [runLoop, processMessage_drop env initialState initialGlobals m hm,
        List.map_cons, Event.isYields, hwf]
      exact ⟨ihh.1, by rw [ihh.2]⟩

theorem malformed_resilience_witness :
    (runLoop ⟨some 24⟩ initialState initialGlobals
      [[222, 173], scenarioMsg, [1, 2, 3], scenarioMsg]).err = none ∧
    (runLoop ⟨some 24⟩ initialState initialGlobals
      [[222, 173], scenarioMsg, [1, 2, 3], scenarioMsg]).events.map
        Event.isYields
      = [[222, 173], scenarioMsg, [1, 2, 3], scenarioMsg].map wellFormed :=
  malformed_resilience ⟨some 24⟩
    [[222, 173], scenarioMsg, [1, 2, 3], scenarioMsg]
    (fun m hm => by
      rw [show List.find? wellFormed
            [[222, 173], scenarioMsg, [1, 2, 3], scenarioMsg]
          = some scenarioMsg from by decide] at hm
      injection hm with h
      subst h
      exact ⟨⟨2, 4, 3, 24⟩, ⟨some ⟨2, 4, 3, 24⟩, some ⟨24⟩, 1⟩,
        initialGlobals, by decide⟩)

theorem processMessage_shm_mono (env : Env) (s : ClientState) (g : Globals)
    (m : List Nat) (x : Shm) (h : s.shm = some x) :
    (processMessage env s g m).state.shm = some x := by
  unfold processMessage
  cases hu : SyncMessage.unmarshal m with
  | error e => exact h
  | ok sync =>
    cases hb : s.image_buffer with
    | some buf => exact h
    | none =>
      unfold initShm
      rw [h]
      exact h

/-- Claim C8, amended: when the streaming loop terminates — including by a
propagating attach or view-construction error — the loop performs no
release of the shared-memory attachment: an attached handle stays exactly
as it was in the final state, on every path.  (The error itself does
surface to the caller as the run's terminating error.) -/
theorem shm_never_released (env : Env) (msgs : List (List Nat))
    (s : ClientState) (g : Globals) (x : Shm) (h : s.shm = some x) :
    (runLoop env s g msgs).state.shm = some x := by
  induction msgs generalizing s g with
  | nil => exact h
  | cons m ms ih =>
    cases hp : processMessage env s g m with
    | yielded v s' g' =>
      have hmono := processMessage_shm_mono env s g m x h
      rw [hp] at hmono
      simp only [runLoop, hp]
      exact ih s' g' hmono
    | dropped s' g' =>
      have hmono := processMessage_shm_mono env s g m x h
      rw [hp] at hmono
      simp only [runLoop, hp]
      exact ih s' g' hmono
    | raised e s' g' =>
      have hmono := processMessage_shm_mono env s g m x h
      rw [hp] at hmono
      simp only [runLoop, hp]
      exact hmono

theorem shm_never_released_witness :
    ((⟨none, some ⟨10⟩, 1⟩ : ClientState).shm = some ⟨10⟩) ∧
    (runLoop ⟨some 10⟩ ⟨none, some ⟨10⟩, 1⟩ initialGlobals
      [scenarioMsg, [1, 2]]).state.shm = some ⟨10⟩ :=
  ⟨rfl, shm_never_released ⟨some 10⟩ [scenarioMsg, [1, 2]]
    ⟨none, some ⟨10⟩, 1⟩ initialGlobals ⟨10⟩ rfl⟩

/-- Claim C8, counterexample: over a 10-byte segment, the scenario
notification (which needs 24 bytes) makes the attach succeed and the view
construction fail; the loop terminates propagating that error to the
caller, yet the attachment just made is still held in the final state —
nothing released it before propagation, contradicting the claim that
attachment resources are released first. -/
theorem release_before_propagation_cex :
    (runLoop ⟨some 10⟩ initialState initialGlobals [scenarioMsg]).err
      = some .bufferTooSmall ∧
    (runLoop ⟨some 10⟩ initialState initialGlobals
      [scenarioMsg]).state.attachCount = 1 ∧
    (runLoop ⟨some 10⟩ initialState initialGlobals [scenarioMsg]).state.shm
      = some ⟨10⟩ := by
  decide

theorem processMessage_initial_bts_inv (env : Env) (g : Globals)
    (m : List Nat) (s' : ClientState) (g' : Globals)
    (h : processMessage env initialState g m
      = .raised .bufferTooSmall s' g') :
    ∃ sz, env.seg = some sz ∧ s' = ⟨none, some ⟨sz⟩, 1⟩ ∧ g' = g := by
  by_cases hm : m.length = 14
  · unfold processMessage at h
    rw [unmarshal_of_len_eq m hm] at h
    simp only [initialState] at h
    unfold initShm at h
    simp only [initShmTrackArg, sharedMemoryInit] at h
    cases henv : env.seg with
    | none => rw [henv] at h; simp at h
    | some sz =>
      rw [henv] at h
      simp only [Bool.false_eq_true, if_false] at h
      by_cases hfit : (decodeFields m).height * (decodeFields m).width *
          (decodeFields m).channels ≤ sz
      · rw [if_pos hfit] at h
        exact absurd h (by simp)
      · rw [if_neg hfit] at h
        injection h with he hs hg
        exact ⟨sz, rfl, hs.symm, hg.symm⟩
  · rw [processMessage_drop env initialState g m hm] at h
    exact absurd h (by simp)

/-- Claim C10: attach and view construction are not atomic — if on the
first well-formed notification the attach succeeds but the view
construction fails, the client keeps the handle with no view, so
processing any later well-formed notification raises the `ValueError`
(`AlreadyAttached`) instead of re-attaching or yielding. -/
theorem attach_view_not_atomic (env : Env) (g : Globals) (m : List Nat)
    (s' : ClientState) (g' : Globals)
    (h : processMessage env initialState g m
      = .raised .bufferTooSmall s' g') :
    s'.image_buffer = none ∧ s'.shm ≠ none ∧ s'.attachCount = 1 ∧
    ∀ m2, m2.length = 14 →
      processMessage env s' g' m2 = .raised .valueError s' g' := by
  obtain ⟨sz, henv, hs, hg⟩ :=
    processMessage_initial_bts_inv env g m s' g' h
  subst hs
  subst hg
  refine ⟨rfl, by simp, rfl, ?_⟩
  intro m2 hm2
  unfold processMessage
  rw [unmarshal_of_len_eq m2 hm2]
  rfl

theorem attach_view_not_atomic_witness :
    processMessage ⟨some 10⟩ ⟨none, some ⟨10⟩, 1⟩ initialGlobals scenarioMsg
      = .raised .valueError ⟨none, some ⟨10⟩, 1⟩ initialGlobals :=
  (attach_view_not_atomic ⟨some 10⟩ initialGlobals scenarioMsg
    ⟨none, some ⟨10⟩, 1⟩ initialGlobals (by decide)).2.2.2 scenarioMsg
    (by decide)
